import Mathlib

/-!
Verification of the DBDaemon in-memory table state and transaction engine.

This file gives a shallow embedding of the daemon's single- and
dual-timeline versioning engines, the update batch, the verification
scan, and the relevant RPC entry points, translated from the Rust
sources (`src/dbdaemon/src/daemon/*.rs`,
`src/dbdaemon/src/database/elastic/backend.rs`).  Timestamps
(`chrono::DateTime<Utc>`) are modelled as integers, object ids and
elastic (document) ids as natural numbers, and user payloads as an
arbitrary type `V`.  The value and version types of the external
`dbschema` crate are not part of the sources; their record transforms
are modelled from the specification (section "Record transforms used
during derivation") and are marked as such below.
-/

/-- Timestamps: `chrono::DateTime<Utc>` modelled as integers. -/
abbrev Time := Int

/-- `dbschema::ObjectId`: opaque identifier, modelled as a natural number. -/
abbrev ObjectId := Nat

/-- `ElasticId`: random document-store id, modelled as a natural number.
Fresh ids are produced from a counter threaded through the update batch. -/
abbrev ElasticId := Nat

/-- Modelled from the spec: `dbschema` anchor `(created, from, to?)`.
`from` is a Lean keyword, so the field is named `from_`. -/
structure Anchor where
  created : Time
  from_ : Time
  to_ : Option Time
deriving Repr, DecidableEq

/-- Modelled from the spec: the version part of a `dbschema`
dual-versioned value: `{ current: Anchor, committed: timestamp?, active: Anchor? }`. -/
structure DualVersionInfo where
  current : Anchor
  committed : Option Time
  active : Option Anchor
deriving Repr, DecidableEq

/-- Modelled from the spec: `dbschema::DualVersionedValue`:
`{ version: DualVersionInfo, value: payload }`. -/
structure DualVersionedValue (V : Type) where
  version : DualVersionInfo
  value : V
deriving Repr, DecidableEq

/-- Modelled from the spec: `DualVersionedValue::new(now, value, commit)`,
a fresh record `{current=(now,none), committed=commit?now:none, active=none}`
(used by the commit derivation through `updates.create`). -/
def DualVersionedValue.new (now : Time) (value : V) (commit : Bool) :
    DualVersionedValue V :=
  { version :=
      { current := ⟨now, now, none⟩
        committed := if commit then some now else none
        active := none }
    value := value }

/-- Modelled from the spec: `DualVersionedValue::update(now, v, c)` returns a
fresh record `{current=(now,none), committed=c?now:none, active=none, value=v}`.
The spec writes `active=inherit-or-none`; scenario S3 ("insert new record
current(T2→none)", new state `Updated` whose current record is live on the
current timeline only) pins the new record's active anchor to `none`. -/
def DualVersionedValue.update (_v : DualVersionedValue V) (now : Time)
    (value : V) (commit : Bool) : DualVersionedValue V :=
  DualVersionedValue.new now value commit

/-- Modelled from the spec: `DualVersionedValue::update_uncommitted(now, v, c)`,
in-place mutation: retain the current anchor (scenario S5: "current anchor
unchanged"), replace the value, set `committed := c ? now : none`. -/
def DualVersionedValue.update_uncommitted (v : DualVersionedValue V)
    (now : Time) (value : V) (commit : Bool) : DualVersionedValue V :=
  { version := { v.version with committed := if commit then some now else none }
    value := value }

/-- Modelled from the spec: `DualVersionedValue::remove(now)` closes the
current side: `current.to_ := now`. -/
def DualVersionedValue.remove (v : DualVersionedValue V) (now : Time) :
    DualVersionedValue V :=
  { v with version :=
      { v.version with current := { v.version.current with to_ := some now } } }

/-- Modelled from the spec: `DualVersionedValue::activate(now, prev_active)`
sets `active := (created=first_activation_ts, from=now, to=none)`; if
`prev_active` is present its `created` is retained. -/
def DualVersionedValue.activate (v : DualVersionedValue V) (now : Time)
    (prev_active : Option Anchor) : DualVersionedValue V :=
  let first_activation : Time :=
    match prev_active with
    | some p => p.created
    | none => now
  { v with version :=
      { v.version with active := Option.some ⟨first_activation, now, none⟩ } }

/-- Modelled from the spec: `DualVersionedValue::activate_remove(now)` closes
the active side: `active.to_ := now`. -/
def DualVersionedValue.activate_remove (v : DualVersionedValue V)
    (now : Time) : DualVersionedValue V :=
  { v with version :=
      { v.version with active :=
          v.version.active.map fun a => { a with to_ := some now } } }

/-- Modelled from the spec: the version part of a `dbschema` single-versioned
value. The anchor is stored under the field `active` (the daemon sources
access `value.version.active.from`/`.to` on single-versioned values). -/
structure SingleVersionInfo where
  active : Anchor
deriving Repr, DecidableEq

/-- Modelled from the spec: `dbschema::SingleVersionedValue`:
`{ version: Anchor, value: payload }`. -/
structure SingleVersionedValue (V : Type) where
  version : SingleVersionInfo
  value : V
deriving Repr, DecidableEq

/-- Modelled from the spec: a fresh single-versioned record
`{from = now, to = none}` (spec section 4.4, commit: "fresh document id,
version 0, from = now, to = none"). -/
def SingleVersionedValue.new (now : Time) (value : V) :
    SingleVersionedValue V :=
  { version := { active := ⟨now, now, none⟩ }, value := value }

/-- Modelled from the spec: `SingleVersionedValue::update(now, v)` produces
the payload of the fresh replacing record. -/
def SingleVersionedValue.update (_v : SingleVersionedValue V) (now : Time)
    (value : V) : SingleVersionedValue V :=
  SingleVersionedValue.new now value

/-- Modelled from the spec: `SingleVersionedValue::remove(now)` closes the
record: `to_ := now`. -/
def SingleVersionedValue.remove (v : SingleVersionedValue V) (now : Time) :
    SingleVersionedValue V :=
  { v with version :=
      { active := { v.version.active with to_ := some now } } }

/-- `dbschema::Timeline` selector (dual-timeline read APIs). -/
inductive Timeline where
  | Current
  | Active
deriving Repr, DecidableEq

/-- `ElasticDoc<T>` (daemon/table_data.rs): one stored document together
with its document id and external version. -/
structure ElasticDoc (V : Type) where
  elastic_id : ElasticId
  version : Nat
  value : V
deriving Repr, DecidableEq

/-- `ElasticDoc::update` (daemon/table_data.rs): same document id,
version + 1, transformed value. -/
def ElasticDoc.update (d : ElasticDoc V) (f : V → V) : ElasticDoc V :=
  ⟨d.elastic_id, d.version + 1, f d.value⟩

/-- `DualVersionedObj` (daemon/dual_versioned_data.rs): per-object state of
the dual-timeline engine. -/
inductive DualVersionedObj (T : Type) where
  | Created (current : T) (committed : Bool)
  | Removed (active : T)
  | Updated (active : T) (current : T) (committed : Bool)
  | Activated (active : T)
deriving Repr, DecidableEq

/-- `DualVersionedObj::get_current` (daemon/dual_versioned_data.rs). -/
def DualVersionedObj.get_current : DualVersionedObj T → Option T
  | .Created current _ => some current
  | .Updated _ current _ => some current
  | .Activated active => some active
  | .Removed _ => none

/-- `DualVersionedObj::get_active` (daemon/dual_versioned_data.rs). -/
def DualVersionedObj.get_active : DualVersionedObj T → Option T
  | .Created _ _ => none
  | .Updated active _ _ => some active
  | .Activated active => some active
  | .Removed active => some active

/-- `DualVersionedObj::get` (daemon/dual_versioned_data.rs). -/
def DualVersionedObj.get (o : DualVersionedObj T) : Timeline → Option T
  | .Current => o.get_current
  | .Active => o.get_active

/-- `DualVersionedObj::from_doc` (daemon/dual_versioned_data.rs): fold one
stored record into a per-object state, classifying it by liveness of its
current and active anchors; a fully closed record yields `none`. -/
def DualVersionedObj.from_doc (elastic_id : ElasticId) (version : Nat)
    (value : DualVersionedValue V) :
    Option (DualVersionedObj (ElasticDoc (DualVersionedValue V))) :=
  let is_current := value.version.current.to_.isNone
  let is_active := match value.version.active with
                   | some a => a.to_.isNone
                   | none => false
  let committed := value.version.committed.isSome
  let doc : ElasticDoc (DualVersionedValue V) := ⟨elastic_id, version, value⟩
  match is_current, is_active with
  | true, true => some (.Activated doc)
  | false, true => some (.Removed doc)
  | true, false => some (.Created doc committed)
  | false, false => none

/-- `DualVersionedObj::combine` (daemon/dual_versioned_data.rs): merging
the per-object fold of two live records succeeds only for a
`Created`/`Removed` pair (yielding `Updated`); any other combination is
rejected (`Err`), which the loader surfaces as `InconsistentData`. -/
def DualVersionedObj.combine (x other : DualVersionedObj T) :
    Except (DualVersionedObj T) (DualVersionedObj T) :=
  match x, other with
  | .Created current committed, .Removed active =>
      .ok (.Updated active current committed)
  | .Removed active, .Created current committed =>
      .ok (.Updated active current committed)
  | x, _ => .error x

/-- `DualVersionedUpdate` (daemon/dual_versioned_data.rs): the per-object
in-transaction update token, a closed set of ten edit sequences. -/
inductive DualVersionedUpdate (V : Type) where
  | Insert (value : V) (commit : Bool)
  | Remove
  | Activate
  | ActivateInsert (value : V) (commit : Bool)
  | ActivateRemove
  | InsertActivate (value : V)
  | InsertActivateInsert (before after : V) (commit : Bool)
  | InsertActivateRemove (before : V)
  | RemoveActivate
  | RemoveActivateInsert (value : V) (commit : Bool)
deriving Repr, DecidableEq

/-- `DualVersionedUpdate::insert` (daemon/dual_versioned_data.rs): token
rewrite for the primitive edit `insert(value, commit)`. -/
def DualVersionedUpdate.insert (t : DualVersionedUpdate V) (value : V)
    (commit : Bool) : DualVersionedUpdate V :=
  match t with
  | .Insert _ _ | .Remove => .Insert value commit
  | .Activate | .ActivateInsert _ _ | .ActivateRemove =>
      .ActivateInsert value commit
  | .InsertActivate before
  | .InsertActivateInsert before _ _
  | .InsertActivateRemove before =>
      .InsertActivateInsert before value commit
  | .RemoveActivate | .RemoveActivateInsert _ _ =>
      .RemoveActivateInsert value commit

/-- `DualVersionedUpdate::remove` (daemon/dual_versioned_data.rs): token
rewrite for the primitive edit `remove`. -/
def DualVersionedUpdate.remove (t : DualVersionedUpdate V) :
    DualVersionedUpdate V :=
  match t with
  | .Insert _ _ | .Remove => .Remove
  | .Activate | .ActivateInsert _ _ | .ActivateRemove => .ActivateRemove
  | .InsertActivate before
  | .InsertActivateInsert before _ _
  | .InsertActivateRemove before => .InsertActivateRemove before
  | .RemoveActivate | .RemoveActivateInsert _ _ => .RemoveActivate

/-- `DualVersionedUpdate::activate` (daemon/dual_versioned_data.rs): token
rewrite for the primitive edit `activate`. -/
def DualVersionedUpdate.activate (t : DualVersionedUpdate V) :
    DualVersionedUpdate V :=
  match t with
  | .Activate => .Activate
  | .InsertActivate value => .InsertActivate value
  | .RemoveActivate => .RemoveActivate
  | .Insert value _
  | .ActivateInsert value _
  | .InsertActivateInsert _ value _
  | .RemoveActivateInsert value _ => .InsertActivate value
  | .Remove | .ActivateRemove | .InsertActivateRemove _ => .RemoveActivate

/-- `DualVersionedUpdate::get_current` (daemon/dual_versioned_data.rs):
projection of the would-be-visible current payload; falls back to the
supplied base accessor when the token is transparent on the current
timeline. -/
def DualVersionedUpdate.get_current (t : DualVersionedUpdate V)
    (get_current : Unit → Option V) : Option V :=
  match t with
  | .Insert value _
  | .ActivateInsert value _
  | .InsertActivate value
  | .InsertActivateInsert _ value _
  | .RemoveActivateInsert value _ => some value
  | .Remove
  | .ActivateRemove
  | .InsertActivateRemove _
  | .RemoveActivate => none
  | .Activate => get_current ()

/-- `DualVersionedUpdate::get_active` (daemon/dual_versioned_data.rs):
projection of the would-be-visible active payload. -/
def DualVersionedUpdate.get_active (t : DualVersionedUpdate V)
    (get_current get_active : Unit → Option V) : Option V :=
  match t with
  | .Insert _ _ | .Remove => get_active ()
  | .Activate | .ActivateInsert _ _ | .ActivateRemove => get_current ()
  | .InsertActivate value
  | .InsertActivateInsert value _ _
  | .InsertActivateRemove value => some value
  | .RemoveActivate | .RemoveActivateInsert _ _ => none

/-- One update-batch entry: `(document id, expected version, object id, payload)`
(daemon/updates.rs stores `elastic_id → (version, Identified { object_id, value })`). -/
structure BatchEntry (V : Type) where
  elastic_id : ElasticId
  version : Nat
  object_id : ObjectId
  value : V
deriving Repr, DecidableEq

/-- `UpdateGuard` (daemon/updates.rs): the update batch. The Rust value is a
hash map keyed by document id; we record the sequence of insertions
(`entries`, in emission order) — the map view is the last entry per document
id — together with the counter producing fresh document ids
(`ElasticId::new()` / `ElasticDoc::new`). -/
structure UpdateGuard (V : Type) where
  entries : List (BatchEntry V)
  fresh : ElasticId
deriving Repr, DecidableEq

/-- The map view of the update batch: the latest entry for a document id
(`HashMap::insert` overwrites the previous value for the key). -/
def UpdateGuard.lookup (g : UpdateGuard V) (id : ElasticId) :
    Option (Nat × ObjectId × V) :=
  g.entries.foldl
    (fun acc e =>
      if e.elastic_id = id then some (e.version, e.object_id, e.value) else acc)
    none

/-- `UpdateGuard::insert` (daemon/updates.rs). -/
def UpdateGuard.insert (g : UpdateGuard V) (object_id : ObjectId)
    (elastic_id : ElasticId) (version : Nat) (value : V) : UpdateGuard V :=
  { g with entries := g.entries ++ [⟨elastic_id, version, object_id, value⟩] }

/-- `UpdateGuard::insert_doc` (daemon/updates.rs). -/
def UpdateGuard.insert_doc (g : UpdateGuard V) (object_id : ObjectId)
    (doc : ElasticDoc V) : UpdateGuard V :=
  g.insert object_id doc.elastic_id doc.version doc.value

/-- `UpdateGuard::create` (daemon/updates.rs): insert a fresh document
(`ElasticDoc::new`: fresh id, version 0) and return it. -/
def UpdateGuard.create (g : UpdateGuard V) (object_id : ObjectId)
    (value : V) : ElasticDoc V × UpdateGuard V :=
  let doc : ElasticDoc V := ⟨g.fresh, 0, value⟩
  (doc, { (g.insert_doc object_id doc) with fresh := g.fresh + 1 })

/-- `UpdateGuard::update` (daemon/updates.rs): bump the document's version,
transform its value, insert it, return it. -/
def UpdateGuard.update (g : UpdateGuard V) (object_id : ObjectId)
    (doc : ElasticDoc V) (f : V → V) : ElasticDoc V × UpdateGuard V :=
  let d := doc.update f
  (d, g.insert_doc object_id d)

/-- `UpdateGuard::replace` (daemon/updates.rs): close the old document
(`prev`, version + 1) and open a fresh one (`new`, version 0) from the old
value (`ElasticDoc::update_new`); insert both (old first), return the new. -/
def UpdateGuard.replace (g : UpdateGuard V) (object_id : ObjectId)
    (doc : ElasticDoc V) (prev new : V → V) : ElasticDoc V × UpdateGuard V :=
  let p := doc.update prev
  let n : ElasticDoc V := ⟨g.fresh, 0, new doc.value⟩
  (n, { ((g.insert_doc object_id p).insert_doc object_id n) with
          fresh := g.fresh + 1 })

/-- `UpdateGuard::split` (daemon/updates.rs): like `replace` but returns both
documents. -/
def UpdateGuard.split (g : UpdateGuard V) (object_id : ObjectId)
    (doc : ElasticDoc V) (prev new : V → V) :
    (ElasticDoc V × ElasticDoc V) × UpdateGuard V :=
  let p := doc.update prev
  let n : ElasticDoc V := ⟨g.fresh, 0, new doc.value⟩
  ((p, n), { ((g.insert_doc object_id p).insert_doc object_id n) with
               fresh := g.fresh + 1 })

/-- `UpdateGuard::remove` (daemon/updates.rs): bump the document's version,
transform its value, insert it (no return). -/
def UpdateGuard.remove (g : UpdateGuard V) (object_id : ObjectId)
    (doc : ElasticDoc V) (f : V → V) : UpdateGuard V :=
  g.insert_doc object_id (doc.update f)

/-- Abbreviation for the document type held by the dual-timeline engine. -/
abbrev DualDoc (V : Type) := ElasticDoc (DualVersionedValue V)

/-- Abbreviation for the per-object state held by the dual-timeline engine. -/
abbrev DualObj (V : Type) := DualVersionedObj (DualDoc V)

/-- The per-object body of `DualVersionedTransaction::commit`
(daemon/dual_versioned_data.rs, the large `token × prior-state` match):
given the commit time, the object's final update token and its prior state
(`None` when the object id is absent from the in-memory map), emit the
update-batch entries and compute the new in-memory state. -/
def commitDualObj (now : Time) (oid : ObjectId) (upd : DualVersionedUpdate V)
    (obj : Option (DualObj V)) (g : UpdateGuard (DualVersionedValue V)) :
    Option (DualObj V) × UpdateGuard (DualVersionedValue V) :=
  match upd, obj with
  | .Insert value commit, some (.Created current committed) =>
      match committed with
      | true =>
          let (new_current, g) :=
            g.replace oid current (fun v => v.remove now)
              (fun v => v.update now value commit)
          (some (.Created new_current commit), g)
      | false =>
          let (new_current, g) :=
            g.update oid current (fun v => v.update_uncommitted now value commit)
          (some (.Created new_current commit), g)
  | .Insert value commit, some (.Removed active) =>
      let (current, g) := g.create oid (DualVersionedValue.new now value commit)
      (some (.Updated active current commit), g)
  | .Insert value commit, some (.Activated active) =>
      let ((active, current), g) :=
        g.split oid active (fun v => v.remove now)
          (fun v => v.update now value commit)
      (some (.Updated active current commit), g)
  | .Insert value commit, some (.Updated active current committed) =>
      match committed with
      | true =>
          let (current, g) :=
            g.replace oid current (fun v => v.remove now)
              (fun v => v.update now value commit)
          (some (.Updated active current commit), g)
      | false =>
          let (current, g) :=
            g.update oid current (fun v => v.update_uncommitted now value commit)
          (some (.Updated active current commit), g)
  | .Insert value commit, none =>
      let (current, g) := g.create oid (DualVersionedValue.new now value commit)
      (some (.Created current commit), g)
  | .Remove, some (.Created current _) =>
      (none, g.remove oid current (fun v => v.remove now))
  | .Remove, some (.Updated active current _) =>
      (some (.Removed active), g.remove oid current (fun v => v.remove now))
  | .Remove, some (.Activated active) =>
      let (active, g) := g.update oid active (fun v => v.remove now)
      (some (.Removed active), g)
  | .Remove, some (.Removed active) => (some (.Removed active), g)
  | .Remove, none => (none, g)
  | .Activate, some (.Created current _) =>
      let (active, g) := g.update oid current (fun v => v.activate now none)
      (some (.Activated active), g)
  | .Activate, some (.Updated active current _) =>
      let (new_active, g) :=
        g.update oid current
          (fun v => v.activate now active.value.version.active)
      let g := g.remove oid active (fun v => v.activate_remove now)
      (some (.Activated new_active), g)
  | .Activate, some (.Removed active) =>
      (none, g.remove oid active (fun v => v.activate_remove now))
  | .Activate, some (.Activated active) => (some (.Activated active), g)
  | .Activate, none => (none, g)
  | .ActivateInsert value commit, some (.Created current _) =>
      let ((active, current), g) :=
        g.split oid current (fun v => (v.activate now none).remove now)
          (fun v => v.update now value commit)
      (some (.Updated active current commit), g)
  | .ActivateInsert value commit, some (.Updated active current _) =>
      let ((new_active, current), g) :=
        g.split oid current
          (fun v => v.activate now active.value.version.active)
          (fun v => v.update now value commit)
      let g := g.remove oid active (fun v => v.activate_remove now)
      (some (.Updated new_active current commit), g)
  | .ActivateInsert value commit, some (.Removed active) =>
      let (current, g) :=
        g.replace oid active (fun v => v.activate_remove now)
          (fun v => v.update now value commit)
      (some (.Created current commit), g)
  | .ActivateInsert value commit, some (.Activated active) =>
      let (current, g) :=
        g.update oid active (fun v => v.update now value commit)
      (some (.Updated active current commit), g)
  | .ActivateInsert value commit, none =>
      let (current, g) := g.create oid (DualVersionedValue.new now value commit)
      (some (.Created current commit), g)
  | .ActivateRemove, some (.Created current _) =>
      let (active, g) :=
        g.update oid current (fun v => (v.activate now none).remove now)
      (some (.Removed active), g)
  | .ActivateRemove, some (.Updated active current _) =>
      let (new_active, g) :=
        g.update oid current
          (fun v => (v.activate now active.value.version.active).remove now)
      let g := g.remove oid active (fun v => v.activate_remove now)
      (some (.Removed new_active), g)
  | .ActivateRemove, some (.Removed active) =>
      (none, g.remove oid active (fun v => v.activate_remove now))
  | .ActivateRemove, some (.Activated active) => (some (.Activated active), g)
  | .ActivateRemove, none => (none, g)
  | .InsertActivate value, some (.Created current committed) =>
      let (active, g) :=
        match committed with
        | false =>
            g.update oid current
              (fun v => (v.update_uncommitted now value true).activate now none)
        | true =>
            g.replace oid current (fun v => v.remove now)
              (fun v => (v.update now value true).activate now none)
      (some (.Activated active), g)
  | .InsertActivate value, some (.Updated active current committed) =>
      let prev_active := active.value.version.active
      let (new_active, g) :=
        match committed with
        | false =>
            g.update oid current
              (fun v =>
                (v.update_uncommitted now value true).activate now prev_active)
        | true =>
            g.replace oid current (fun v => v.remove now)
              (fun v => (v.update now value true).activate now prev_active)
      let g := g.remove oid active (fun v => v.activate_remove now)
      (some (.Activated new_active), g)
  | .InsertActivate value, some (.Removed active) =>
      let prev_active := active.value.version.active
      let (active, g) :=
        g.replace oid active (fun v => v.activate_remove now)
          (fun v => (v.update now value true).activate now prev_active)
      (some (.Activated active), g)
  | .InsertActivate value, some (.Activated active) =>
      let prev_active := active.value.version.active
      let (active, g) :=
        g.replace oid active (fun v => v.activate_remove now)
          (fun v => (v.update now value true).activate now prev_active)
      (some (.Activated active), g)
  | .InsertActivate value, none =>
      let (active, g) :=
        g.create oid ((DualVersionedValue.new now value true).activate now none)
      (some (.Activated active), g)
  | .InsertActivateInsert before after commit, some (.Created current committed) =>
      let ((active, current), g) :=
        match committed with
        | false =>
            g.split oid current
              (fun v =>
                (((v.update_uncommitted now before true).activate now none).remove
                  now))
              (fun v => v.update now after commit)
        | true =>
            let g := g.remove oid current (fun v => v.remove now)
            let (active, g) :=
              g.create oid
                (((current.value.update now before true).activate now none).remove
                  now)
            let (current, g) :=
              g.create oid (current.value.update now after commit)
            ((active, current), g)
      (some (.Updated active current commit), g)
  | .InsertActivateInsert before after commit,
      some (.Updated active current committed) =>
      let prev_active := active.value.version.active
      let g := g.remove oid active (fun v => v.activate_remove now)
      let ((active, current), g) :=
        match committed with
        | false =>
            g.split oid current
              (fun v =>
                (((v.update_uncommitted now before true).activate now
                    prev_active).remove now))
              (fun v => v.update now after commit)
        | true =>
            let g := g.remove oid current (fun v => v.remove now)
            let (active, g) :=
              g.create oid
                (((current.value.update now before true).activate now none).remove
                  now)
            let (current, g) :=
              g.create oid (current.value.update now after commit)
            ((active, current), g)
      (some (.Updated active current commit), g)
  | .InsertActivateInsert before after commit, some (.Removed active) =>
      let g := g.remove oid active (fun v => v.activate_remove now)
      let (active, g) :=
        g.create oid
          (((DualVersionedValue.new now before true).activate now none).remove
            now)
      let (current, g) :=
        g.create oid (DualVersionedValue.new now after commit)
      (some (.Updated active current commit), g)
  | .InsertActivateInsert before after commit, some (.Activated active) =>
      let prev_active := active.value.version.active
      let g := g.remove oid active (fun v => v.activate_remove now)
      let (new_active, g) :=
        g.create oid
          (((active.value.update now before true).activate now
              prev_active).remove now)
      let (current, g) :=
        g.create oid (active.value.update now after commit)
      (some (.Updated new_active current commit), g)
  | .InsertActivateInsert before after commit, none =>
      let (active, g) :=
        g.create oid
          (((DualVersionedValue.new now before true).activate now none).remove
            now)
      let (current, g) :=
        g.create oid (DualVersionedValue.new now after commit)
      (some (.Updated active current commit), g)
  | .InsertActivateRemove value, some (.Created current committed) =>
      let (active, g) :=
        match committed with
        | false =>
            g.update oid current
              (fun v =>
                (((v.update_uncommitted now value true).activate now none).remove
                  now))
        | true =>
            let g := g.remove oid current (fun v => v.remove now)
            g.create oid
              (((current.value.update now value true).activate now none).remove
                now)
      (some (.Removed active), g)
  | .InsertActivateRemove value, some (.Updated active current committed) =>
      let prev_active := active.value.version.active
      let g := g.remove oid active (fun v => v.activate_remove now)
      let (active, g) :=
        match committed with
        | false =>
            g.update oid current
              (fun v =>
                (((v.update_uncommitted now value true).activate now
                    prev_active).remove now))
        | true =>
            let g := g.remove oid current (fun v => v.remove now)
            g.create oid
              (((current.value.update now value true).activate now
                  prev_active).remove now)
      (some (.Removed active), g)
  | .InsertActivateRemove value, some (.Removed active) =>
      let prev_active := active.value.version.active
      let g := g.remove oid active (fun v => v.activate_remove now)
      let (active, g) :=
        g.create oid
          (((DualVersionedValue.new now value true).activate now
              prev_active).remove now)
      (some (.Removed active), g)
  | .InsertActivateRemove value, some (.Activated active) =>
      let prev_active := active.value.version.active
      let g :=
        g.remove oid active (fun v => (v.remove now).activate_remove now)
      let (active, g) :=
        g.create oid
          (((active.value.update now value true).activate now
              prev_active).remove now)
      (some (.Removed active), g)
  | .InsertActivateRemove value, none =>
      let (active, g) :=
        g.create oid
          (((DualVersionedValue.new now value true).activate now none).remove
            now)
      (some (.Removed active), g)
  | .RemoveActivate, some (.Created current _) =>
      (none, g.remove oid current (fun v => v.remove now))
  | .RemoveActivate, some (.Updated active current _) =>
      let g := g.remove oid active (fun v => v.activate_remove now)
      (none, g.remove oid current (fun v => v.remove now))
  | .RemoveActivate, some (.Removed active) =>
      (none, g.remove oid active (fun v => v.activate_remove now))
  | .RemoveActivate, some (.Activated active) =>
      (none, g.remove oid active (fun v => (v.remove now).activate_remove now))
  | .RemoveActivate, none => (none, g)
  | .RemoveActivateInsert value commit, some (.Created current _) =>
      let g := g.remove oid current (fun v => v.remove now)
      let (current, g) := g.create oid (DualVersionedValue.new now value commit)
      (some (.Created current commit), g)
  | .RemoveActivateInsert value commit, some (.Updated active current _) =>
      let prev_active := active.value.version.active
      let g :=
        g.remove oid current
          (fun v => (((v.activate now prev_active).remove now).activate_remove
            now))
      let g := g.remove oid active (fun v => v.activate_remove now)
      let (current, g) := g.create oid (DualVersionedValue.new now value commit)
      (some (.Created current commit), g)
  | .RemoveActivateInsert value commit, some (.Removed active) =>
      let g := g.remove oid active (fun v => v.activate_remove now)
      let (current, g) := g.create oid (DualVersionedValue.new now value commit)
      (some (.Created current commit), g)
  | .RemoveActivateInsert value commit, some (.Activated active) =>
      let g :=
        g.remove oid active
          (fun v => (((v.remove now).activate_remove now).remove now))
      let (current, g) := g.create oid (DualVersionedValue.new now value commit)
      (some (.Created current commit), g)
  | .RemoveActivateInsert value commit, none =>
      let (current, g) := g.create oid (DualVersionedValue.new now value commit)
      (some (.Created current commit), g)

/-- Replace the value stored under a key of an association list, in place
(`HashMap` entry modification). -/
def setAssoc (l : List (ObjectId × A)) (k : ObjectId) (v : A) :
    List (ObjectId × A) :=
  l.map fun p => if p.1 = k then (k, v) else p

/-- Look up a key in an association list. -/
def getAssoc (l : List (ObjectId × A)) (k : ObjectId) : Option A :=
  (l.find? fun p => p.1 = k).map (·.2)

/-- Lookup in the empty association list. -/
@[simp]
theorem getAssoc_nil (k : ObjectId) :
    getAssoc ([] : List (ObjectId × A)) k = none :=
  rfl

/-- Remove a key from an association list (`HashMap::remove`). -/
def removeAssoc (l : List (ObjectId × A)) (k : ObjectId) :
    List (ObjectId × A) :=
  l.filter fun p => ¬ p.1 = k

/-- `DualVersionedData` (daemon/dual_versioned_data.rs): the authoritative
in-memory map from object id to per-object state, modelled as an
association list. -/
structure DualVersionedData (V : Type) where
  objs : List (ObjectId × DualObj V)
deriving Repr, DecidableEq

/-- `DualVersionedData::get_current` (daemon/dual_versioned_data.rs). -/
def DualVersionedData.get_current (d : DualVersionedData V)
    (object_id : ObjectId) : Option (DualVersionedValue V) :=
  (getAssoc d.objs object_id).bind (fun o => o.get_current) |>.map (·.value)

/-- `DualVersionedData::get_active` (daemon/dual_versioned_data.rs). -/
def DualVersionedData.get_active (d : DualVersionedData V)
    (object_id : ObjectId) : Option (DualVersionedValue V) :=
  (getAssoc d.objs object_id).bind (fun o => o.get_active) |>.map (·.value)

/-- `DualVersionedData::get` (daemon/dual_versioned_data.rs). -/
def DualVersionedData.get (d : DualVersionedData V) (object_id : ObjectId) :
    Timeline → Option (DualVersionedValue V)
  | .Current => d.get_current object_id
  | .Active => d.get_active object_id

/-- `DualVersionedTransaction` (daemon/dual_versioned_data.rs): the borrowed
data plus the per-object pending update tokens (a hash map in Rust, an
association list in insertion order here). -/
structure DualVersionedTransaction (V : Type) where
  data : DualVersionedData V
  updates : List (ObjectId × DualVersionedUpdate V)
deriving Repr, DecidableEq

/-- `DualVersionedTransaction::get_current` (daemon/dual_versioned_data.rs):
project the pending token over the committed base. -/
def DualVersionedTransaction.get_current (t : DualVersionedTransaction V)
    (object_id : ObjectId) : Option V :=
  let get_current := fun (_ : Unit) =>
    (t.data.get_current object_id).map (·.value)
  ((getAssoc t.updates object_id).bind
      (fun u => u.get_current get_current)).orElse get_current

/-- `DualVersionedTransaction::get_active` (daemon/dual_versioned_data.rs). -/
def DualVersionedTransaction.get_active (t : DualVersionedTransaction V)
    (object_id : ObjectId) : Option V :=
  let get_current := fun (_ : Unit) =>
    (t.data.get_current object_id).map (·.value)
  let get_active := fun (_ : Unit) =>
    (t.data.get_active object_id).map (·.value)
  ((getAssoc t.updates object_id).bind
      (fun u => u.get_active get_current get_active)).orElse get_active

/-- `DualVersionedTransaction::insert` (daemon/dual_versioned_data.rs):
rewrite the object's pending token with the primitive edit
`insert(value, commit)`, or start one at `Insert(value, commit)`. -/
def DualVersionedTransaction.insert (t : DualVersionedTransaction V)
    (object_id : ObjectId) (value : V) (commit : Bool) :
    DualVersionedTransaction V :=
  match getAssoc t.updates object_id with
  | some u =>
      { t with updates := setAssoc t.updates object_id (u.insert value commit) }
  | none =>
      { t with updates := t.updates ++ [(object_id, .Insert value commit)] }

/-- `DualVersionedTransaction::create` (daemon/dual_versioned_data.rs).
Transcribed exactly: `self.get_current(&object_id).is_some() || {
self.insert(object_id, value, commit); true }` — the short-circuit `||`
returns `true` in both branches and skips the insert when a current value
is visible. -/
def DualVersionedTransaction.create (t : DualVersionedTransaction V)
    (object_id : ObjectId) (value : V) (commit : Bool) :
    Bool × DualVersionedTransaction V :=
  if (t.get_current object_id).isSome then (true, t)
  else (true, t.insert object_id value commit)

/-- `DualVersionedTransaction::update` (daemon/dual_versioned_data.rs). -/
def DualVersionedTransaction.update (t : DualVersionedTransaction V)
    (object_id : ObjectId) (value : V) (commit : Bool) :
    Bool × DualVersionedTransaction V :=
  if (t.get_current object_id).isSome then (true, t.insert object_id value commit)
  else (false, t)

/-- `DualVersionedTransaction::remove` (daemon/dual_versioned_data.rs). -/
def DualVersionedTransaction.remove (t : DualVersionedTransaction V)
    (object_id : ObjectId) : Bool × DualVersionedTransaction V :=
  if (t.get_current object_id).isSome then
    (true,
      match getAssoc t.updates object_id with
      | some u => { t with updates := setAssoc t.updates object_id u.remove }
      | none => { t with updates := t.updates ++ [(object_id, .Remove)] })
  else (false, t)

/-- `DualVersionedTransaction::activate` (daemon/dual_versioned_data.rs). -/
def DualVersionedTransaction.activate (t : DualVersionedTransaction V)
    (object_id : ObjectId) : Bool × DualVersionedTransaction V :=
  if (t.get_current object_id).isSome ∨ (t.get_active object_id).isSome then
    (true,
      match getAssoc t.updates object_id with
      | some u => { t with updates := setAssoc t.updates object_id u.activate }
      | none => { t with updates := t.updates ++ [(object_id, .Activate)] })
  else (false, t)

/-- `DualVersionedTransaction::commit` (daemon/dual_versioned_data.rs): for
each pending (object id, token), take the object's state out of the map,
run the per-object derivation, and put the resulting state back (if any). -/
def DualVersionedTransaction.commit (t : DualVersionedTransaction V)
    (now : Time) (g : UpdateGuard (DualVersionedValue V)) :
    DualVersionedData V × UpdateGuard (DualVersionedValue V) :=
  t.updates.foldl
    (fun acc p =>
      let obj := getAssoc acc.1.objs p.1
      let objs := removeAssoc acc.1.objs p.1
      let (newObj, g) := commitDualObj now p.1 p.2 obj acc.2
      (⟨match newObj with
        | some o => objs ++ [(p.1, o)]
        | none => objs⟩, g))
    (t.data, g)

/-- `SingleVersionedData` (daemon/single_versioned_data.rs): map from object
id to the current-live record. -/
structure SingleVersionedData (V : Type) where
  objs : List (ObjectId × ElasticDoc (SingleVersionedValue V))
deriving Repr, DecidableEq

/-- `SingleVersionedTransaction` (daemon/single_versioned_data.rs): the
pending edits `object_id → some payload | none (delete)`, an association
list in insertion order. -/
structure SingleVersionedTransaction (V : Type) where
  data : SingleVersionedData V
  updates : List (ObjectId × Option V)
deriving Repr, DecidableEq

/-- `SingleVersionedTransaction::create` (daemon/single_versioned_data.rs):
succeeds iff the id is neither buffered nor live. -/
def SingleVersionedTransaction.create (t : SingleVersionedTransaction V)
    (object_id : ObjectId) (value : V) : Bool × SingleVersionedTransaction V :=
  match getAssoc t.updates object_id with
  | some _ => (false, t)
  | none =>
      if (getAssoc t.data.objs object_id).isSome then (false, t)
      else (true, { t with updates := t.updates ++ [(object_id, some value)] })

/-- `SingleVersionedTransaction::update` (daemon/single_versioned_data.rs):
succeeds iff the id is buffered or live. -/
def SingleVersionedTransaction.update (t : SingleVersionedTransaction V)
    (object_id : ObjectId) (value : V) : Bool × SingleVersionedTransaction V :=
  match getAssoc t.updates object_id with
  | some _ =>
      (true, { t with updates := setAssoc t.updates object_id (some value) })
  | none =>
      if (getAssoc t.data.objs object_id).isSome then
        (true, { t with updates := t.updates ++ [(object_id, some value)] })
      else (false, t)

/-- `SingleVersionedTransaction::insert` (daemon/single_versioned_data.rs):
unconditional upsert of the buffered payload. -/
def SingleVersionedTransaction.insert (t : SingleVersionedTransaction V)
    (object_id : ObjectId) (value : V) : SingleVersionedTransaction V :=
  match getAssoc t.updates object_id with
  | some _ =>
      { t with updates := setAssoc t.updates object_id (some value) }
  | none => { t with updates := t.updates ++ [(object_id, some value)] }

/-- `SingleVersionedTransaction::remove` (daemon/single_versioned_data.rs):
succeeds iff a payload is buffered for the id, or nothing is buffered and
the id is live. -/
def SingleVersionedTransaction.remove (t : SingleVersionedTransaction V)
    (object_id : ObjectId) : Bool × SingleVersionedTransaction V :=
  match getAssoc t.updates object_id with
  | some u =>
      if u.isSome then
        (true, { t with updates := setAssoc t.updates object_id none })
      else (false, t)
  | none =>
      if (getAssoc t.data.objs object_id).isSome then
        (true, { t with updates := t.updates ++ [(object_id, none)] })
      else (false, t)

/-- `SingleVersionedTransaction::commit` (daemon/single_versioned_data.rs).
`veq` is the schema-aware value equality `value_schema.value_eq` with the
source's fallback to "changed" (`false`) when the comparison fails. -/
def SingleVersionedTransaction.commit (t : SingleVersionedTransaction V)
    (now : Time) (force_update : Bool) (veq : V → V → Bool)
    (g : UpdateGuard (SingleVersionedValue V)) :
    SingleVersionedData V × UpdateGuard (SingleVersionedValue V) :=
  t.updates.foldl
    (fun acc p =>
      match getAssoc acc.1.objs p.1, p.2 with
      | some doc, some value =>
          if force_update ∨ ¬ veq doc.value.value value then
            let (d, g) :=
              acc.2.replace p.1 doc (fun v => v.remove now)
                (fun v => v.update now value)
            (⟨setAssoc acc.1.objs p.1 d⟩, g)
          else acc
      | some doc, none =>
          (⟨removeAssoc acc.1.objs p.1⟩,
            acc.2.remove p.1 doc (fun v => v.remove now))
      | none, some value =>
          let (d, g) := acc.2.create p.1 (SingleVersionedValue.new now value)
          (⟨acc.1.objs ++ [(p.1, d)]⟩, g)
      | none, none => acc)
    (t.data, g)

/-- The daemon error variants relevant to the embedded entry points
(daemon/error.rs). `SchemaError` stands for the value-schema rejection
raised by `TableMapping::verify_value`. -/
inductive DbError where
  | ObjectIdAlreadyExists (table : String) (object_id : ObjectId)
  | ObjectDoesNotExist (table : String) (object_id : ObjectId)
  | SchemaError
deriving Repr, DecidableEq

/-- `create_config_object_with_id` (daemon/dbdaemon.rs): verify the value,
open a dual-timeline transaction, `create`, fail with
`ObjectIdAlreadyExists` when `create` returns false, else commit.  `verify`
models `TableMapping::verify_value`; `n0` seeds the fresh-document-id
counter. -/
def create_config_object_with_id (table : String) (verify : V → Bool)
    (data : DualVersionedData V) (object_id : ObjectId) (value : V)
    (commit : Bool) (now : Time) (n0 : ElasticId) :
    Except DbError (DualVersionedData V × UpdateGuard (DualVersionedValue V)) :=
  if ¬ verify value then .error .SchemaError
  else
    let t : DualVersionedTransaction V := ⟨data, []⟩
    let (ok, t) := t.create object_id value commit
    if ok then .ok (t.commit now ⟨[], n0⟩)
    else .error (.ObjectIdAlreadyExists table object_id)

/-- `update_config_object` (daemon/dbdaemon.rs). -/
def update_config_object (table : String) (verify : V → Bool)
    (data : DualVersionedData V) (object_id : ObjectId) (value : V)
    (commit : Bool) (now : Time) (n0 : ElasticId) :
    Except DbError (DualVersionedData V × UpdateGuard (DualVersionedValue V)) :=
  if ¬ verify value then .error .SchemaError
  else
    let t : DualVersionedTransaction V := ⟨data, []⟩
    let (ok, t) := t.update object_id value commit
    if ok then .ok (t.commit now ⟨[], n0⟩)
    else .error (.ObjectDoesNotExist table object_id)

/-- `remove_config_object` (daemon/dbdaemon.rs). -/
def remove_config_object (table : String) (data : DualVersionedData V)
    (object_id : ObjectId) (now : Time) (n0 : ElasticId) :
    Except DbError (DualVersionedData V × UpdateGuard (DualVersionedValue V)) :=
  let t : DualVersionedTransaction V := ⟨data, []⟩
  let (ok, t) := t.remove object_id
  if ok then .ok (t.commit now ⟨[], n0⟩)
  else .error (.ObjectDoesNotExist table object_id)

/-- `read_config_object` (daemon/dbdaemon.rs): read the object's value on
the selected timeline. -/
def read_config_object (table : String) (data : DualVersionedData V)
    (object_id : ObjectId) (timeline : Timeline) :
    Except DbError (DualVersionedValue V) :=
  match data.get object_id timeline with
  | some v => .ok v
  | none => .error (.ObjectDoesNotExist table object_id)

/-- `Operation` (dbdaemon-types/src/operation.rs): bulk-update operations. -/
inductive Operation (V : Type) where
  | Create (value : V)
  | Update (value : V)
  | CreateOrUpdate (value : V)
  | Remove
deriving Repr, DecidableEq

/-- One operation of `bulk_update_discovery_objects` (daemon/dbdaemon.rs,
the `try_for_each` body): apply the operation to the transaction, mapping a
failed precondition to the corresponding error. -/
def bulkStep (table : String) (t : SingleVersionedTransaction V)
    (p : ObjectId × Operation V) :
    Except DbError (SingleVersionedTransaction V) :=
  match p.2 with
  | .Create value =>
      let (ok, t) := t.create p.1 value
      if ok then .ok t
      else .error (DbError.ObjectIdAlreadyExists table p.1)
  | .Update value =>
      let (ok, t) := t.update p.1 value
      if ok then .ok t
      else .error (DbError.ObjectDoesNotExist table p.1)
  | .CreateOrUpdate value => .ok (t.insert p.1 value)
  | .Remove =>
      let (ok, t) := t.remove p.1
      if ok then .ok t
      else .error (DbError.ObjectDoesNotExist table p.1)

/-- `bulk_update_discovery_objects` (daemon/dbdaemon.rs): verify all values,
then apply the operations to a fresh single-timeline transaction in
iteration order, failing on the first precondition violation (in which case
the transaction is dropped: no commit, no update batch, the in-memory map
is untouched); on success commit the buffered edits. -/
def bulk_update_discovery_objects (table : String) (verify : V → Bool)
    (data : SingleVersionedData V) (ops : List (ObjectId × Operation V))
    (now : Time) (force_update : Bool) (veq : V → V → Bool) (n0 : ElasticId) :
    Except DbError (SingleVersionedData V × UpdateGuard (SingleVersionedValue V)) :=
  if ¬ (ops.all fun (p : ObjectId × Operation V) =>
          match p.2 with
          | .Create v | .Update v | .CreateOrUpdate v => verify v
          | .Remove => true) then
    .error .SchemaError
  else
    (ops.foldlM (bulkStep table)
        (⟨data, []⟩ : SingleVersionedTransaction V)).map
      fun t => t.commit now force_update veq ⟨[], n0⟩

/-- `VerificationMsg` (verification stream messages, dbdaemon-api):
`Overlap`/`Gap` carry the `VersionProblem` fields
`(object_id, prev_version_id, cur_version_id, prev_to, cur_from)`. -/
inductive VerificationMsg where
  | Overlap (object_id : ObjectId) (prev_version_id cur_version_id : ElasticId)
      (prev_to : Option Time) (cur_from : Time)
  | Gap (object_id : ObjectId) (prev_version_id cur_version_id : ElasticId)
      (prev_to : Option Time) (cur_from : Time)
  | Progress (n : Nat)
deriving Repr, DecidableEq

/-- One record as seen by the verification scan: document id, object id and
the record's active anchor. -/
structure ScanRecord where
  elastic_id : ElasticId
  object_id : ObjectId
  active : Anchor
deriving Repr, DecidableEq

/-- Per-record body of the verification scan (daemon/dbdaemon.rs,
`verify_table_data_start`): compare the record's `active.from` with the
last seen `active.to` for the same object id, emit `Overlap` when the
previous `to` is absent or greater, `Gap` when it is smaller, and record
the pair `(document id, active.to)` as the new last-seen state. -/
def verifyRecord (st : List (ObjectId × (ElasticId × Option Time)))
    (r : ScanRecord) :
    List VerificationMsg × List (ObjectId × (ElasticId × Option Time)) :=
  match getAssoc st r.object_id with
  | some (prev_id, prev_to) =>
      let msgs :=
        match prev_to with
        | none =>
            [VerificationMsg.Overlap r.object_id prev_id r.elastic_id prev_to
              r.active.from_]
        | some p =>
            if r.active.from_ < p then
              [VerificationMsg.Overlap r.object_id prev_id r.elastic_id prev_to
                r.active.from_]
            else if p < r.active.from_ then
              [VerificationMsg.Gap r.object_id prev_id r.elastic_id prev_to
                r.active.from_]
            else []
      (msgs, setAssoc st r.object_id (r.elastic_id, r.active.to_))
  | none => ([], st ++ [(r.object_id, (r.elastic_id, r.active.to_))])

/-- One batch of the verification scan: process the records in order, then
emit `Progress` with the cumulative record count. -/
def verifyBatch (st : List (ObjectId × (ElasticId × Option Time))) (n : Nat)
    (docs : List ScanRecord) :
    List VerificationMsg × List (ObjectId × (ElasticId × Option Time)) × Nat :=
  let n := n + docs.length
  let (msgs, st) :=
    docs.foldl
      (fun acc r =>
        let (ms, st) := verifyRecord acc.2 r
        (acc.1 ++ ms, st))
      (([] : List VerificationMsg), st)
  (msgs ++ [VerificationMsg.Progress n], st, n)

/-- The whole verification scan over the successive batches returned by the
point-in-time query. -/
def verifyScan (batches : List (List ScanRecord)) : List VerificationMsg :=
  (batches.foldl
      (fun acc docs =>
        let (ms, st, n) := verifyBatch acc.2.1 acc.2.2 docs
        (acc.1 ++ ms, st, n))
      (([] : List VerificationMsg),
        ([] : List (ObjectId × (ElasticId × Option Time))), 0)).1

/-- The elastic backend errors relevant to the embedded write paths
(database/elastic/error.rs). `EsError s` is an Elasticsearch error response
with HTTP status `s`. -/
inductive ElasticError where
  | EsError (status : Nat)
  | BulkUpdateComplete
  | BulkUpdatePartial
deriving Repr, DecidableEq

/-- `update_object` (database/elastic/backend.rs): result handling of the
single optimistic write. A 409 error response ("version conflict") is
treated as success; any other error propagates. -/
def update_object_result (resp : Except ElasticError Unit) :
    Except ElasticError Unit :=
  match resp with
  | .ok _ => .ok ()
  | .error (.EsError s) => if s = 409 then .ok () else .error (.EsError s)
  | .error e => .error e

/-- `bulk_update` (database/elastic/backend.rs): decision on the bulk
response `{errors, items}`, given the per-item HTTP statuses. The call
fails iff the response's `errors` flag is set AND some item status is
neither 200 nor 409; it fails with `BulkUpdateComplete` when no item
status is 200 or 409 and with `BulkUpdatePartial` otherwise. -/
def bulk_update_result (errors : Bool) (statuses : List Nat) :
    Except ElasticError Unit :=
  if errors ∧ statuses.any (fun s => ¬ s = 200 ∧ ¬ s = 409) then
    .error
      (if statuses.all (fun s => ¬ s = 200 ∧ ¬ s = 409) then
        ElasticError.BulkUpdateComplete
      else ElasticError.BulkUpdatePartial)
  else .ok ()

/-- A record is live on the current timeline: `current.to = none`. -/
def currentLive (v : DualVersionedValue V) : Bool :=
  v.version.current.to_.isNone

/-- A record is live on the active timeline:
`active = some AND active.to = none`. -/
def activeLive (v : DualVersionedValue V) : Bool :=
  match v.version.active with
  | some a => a.to_.isNone
  | none => false

/-- Apply one update-batch entry to the store: external versioning replaces
the stored document with the given id (every emitted version is strictly
newer), or creates it. -/
def applyEntry (store : List (DualDoc V)) (e : BatchEntry (DualVersionedValue V)) :
    List (DualDoc V) :=
  if store.any (fun d => d.elastic_id = e.elastic_id) then
    store.map fun d =>
      if d.elastic_id = e.elastic_id then ⟨e.elastic_id, e.version, e.value⟩
      else d
  else store ++ [⟨e.elastic_id, e.version, e.value⟩]

/-- Apply an update batch to the store in emission order (the last write
per document id wins, matching the batch's hash-map semantics). -/
def applyBatch (store : List (DualDoc V))
    (entries : List (BatchEntry (DualVersionedValue V))) : List (DualDoc V) :=
  entries.foldl applyEntry store

/-- Count the records live on the current timeline. -/
def countCurrentLive (store : List (DualDoc V)) : Nat :=
  (store.filter fun d => currentLive d.value).length

/-- Count the records live on the active timeline. -/
def countActiveLive (store : List (DualDoc V)) : Nat :=
  (store.filter fun d => activeLive d.value).length

/-- The stored records backing a per-object in-memory state: the documents
held by the state (a fully closed record is never part of the state and is
never touched by a commit). -/
def storeOf : Option (DualObj V) → List (DualDoc V)
  | none => []
  | some (.Created current _) => [current]
  | some (.Removed active) => [active]
  | some (.Updated active current _) => [active, current]
  | some (.Activated active) => [active]

/-- Well-formedness of a prior per-object state, as established by
`DualVersionedObj::from_doc`: each held document is live on exactly the
timelines its state position requires, and the two documents of `Updated`
are distinct. -/
def wellFormedObj : Option (DualObj V) → Prop
  | none => True
  | some (.Created current _) =>
      currentLive current.value = true ∧ activeLive current.value = false
  | some (.Removed active) =>
      currentLive active.value = false ∧ activeLive active.value = true
  | some (.Updated active current _) =>
      currentLive active.value = false ∧ activeLive active.value = true ∧
      currentLive current.value = true ∧ activeLive current.value = false ∧
      ¬ active.elastic_id = current.elastic_id
  | some (.Activated active) =>
      currentLive active.value = true ∧ activeLive active.value = true

/-- The precondition of one bulk operation against the live map of a
single-timeline table: `Create` requires the object id not to be live,
`Update` and `Remove` require it to be live, `CreateOrUpdate` always
applies. `opFails` is true iff the precondition is violated. -/
def opFails (data : SingleVersionedData V) (p : ObjectId × Operation V) :
    Bool :=
  match p.2 with
  | .Create _ => (getAssoc data.objs p.1).isSome
  | .Update _ | .Remove => (getAssoc data.objs p.1).isNone
  | .CreateOrUpdate _ => false

/-- The error reported for a failed bulk operation. -/
def opError (table : String) : ObjectId × Operation V → DbError
  | (oid, .Create _) => .ObjectIdAlreadyExists table oid
  | (oid, _) => .ObjectDoesNotExist table oid

/-- C3: the per-object token rewrite for the primitive edit `insert(v, c)`
is a total function on the ten-token set (it is defined by a total match on
all ten constructors) and maps: `Insert(_,_)` and `Remove` to `Insert(v,c)`;
`Activate`, `ActivateInsert(_,_)` and `ActivateRemove` to
`ActivateInsert(v,c)`; `InsertActivate(b)`, `InsertActivateInsert(b,_,_)`
and `InsertActivateRemove(b)` to `InsertActivateInsert(b,v,c)` (retaining
the active-side payload `b`); `RemoveActivate` and
`RemoveActivateInsert(_,_)` to `RemoveActivateInsert(v,c)`. -/
theorem insert_rewrite_total (V : Type) (v v0 b : V) (c c0 : Bool) :
    (DualVersionedUpdate.Insert v0 c0).insert v c =
      DualVersionedUpdate.Insert v c ∧
    (DualVersionedUpdate.Remove : DualVersionedUpdate V).insert v c =
      DualVersionedUpdate.Insert v c ∧
    (DualVersionedUpdate.Activate : DualVersionedUpdate V).insert v c =
      DualVersionedUpdate.ActivateInsert v c ∧
    (DualVersionedUpdate.ActivateInsert v0 c0).insert v c =
      DualVersionedUpdate.ActivateInsert v c ∧
    (DualVersionedUpdate.ActivateRemove : DualVersionedUpdate V).insert v c =
      DualVersionedUpdate.ActivateInsert v c ∧
    (DualVersionedUpdate.InsertActivate b).insert v c =
      DualVersionedUpdate.InsertActivateInsert b v c ∧
    (DualVersionedUpdate.InsertActivateInsert b v0 c0).insert v c =
      DualVersionedUpdate.InsertActivateInsert b v c ∧
    (DualVersionedUpdate.InsertActivateRemove b).insert v c =
      DualVersionedUpdate.InsertActivateInsert b v c ∧
    (DualVersionedUpdate.RemoveActivate : DualVersionedUpdate V).insert v c =
      DualVersionedUpdate.RemoveActivateInsert v c ∧
    (DualVersionedUpdate.RemoveActivateInsert v0 c0).insert v c =
      DualVersionedUpdate.RemoveActivateInsert v c :=
  ⟨rfl, rfl, rfl, rfl, rfl, rfl, rfl, rfl, rfl, rfl⟩

/-- C2: committing the token `Insert(v, c)` over prior state
`Created{current, committed}` at time `now`: if `committed`, exactly two
update-batch entries are emitted — the old document id with version + 1 and
`current.to := now`, and a fresh document id with version 0 carrying `v` —
while if not `committed`, exactly one entry is emitted — the same document
id with version + 1, carrying `v` in place; in both cases the new in-memory
state is `Created` with committed flag `c`. -/
theorem insert_on_created_commit (V : Type) (now : Time) (oid : ObjectId)
    (v : V) (c : Bool) (cur : DualDoc V) (n0 : ElasticId) :
    commitDualObj now oid (.Insert v c) (some (.Created cur true)) ⟨[], n0⟩ =
      (some (.Created ⟨n0, 0, cur.value.update now v c⟩ c),
        ⟨[⟨cur.elastic_id, cur.version + 1, oid, cur.value.remove now⟩,
          ⟨n0, 0, oid, cur.value.update now v c⟩], n0 + 1⟩) ∧
    commitDualObj now oid (.Insert v c) (some (.Created cur false)) ⟨[], n0⟩ =
      (some (.Created ⟨cur.elastic_id, cur.version + 1,
            cur.value.update_uncommitted now v c⟩ c),
        ⟨[⟨cur.elastic_id, cur.version + 1, oid,
            cur.value.update_uncommitted now v c⟩], n0⟩) ∧
    (cur.value.remove now).version.current.to_ = some now ∧
    (cur.value.update now v c).value = v ∧
    (cur.value.update_uncommitted now v c).value = v :=
  ⟨rfl, rfl, rfl, rfl, rfl⟩

/-- C5: the update batch records the entries produced by a transaction in
insertion order (`insert` appends the produced entry to the emission
sequence), and an entry whose document id duplicates an earlier entry
overwrites it in the batch's map view, so the latest entry for each
document id wins while other document ids are unaffected. -/
theorem update_batch_latest_wins (V : Type) (g : UpdateGuard V)
    (oid : ObjectId) (eid : ElasticId) (ver : Nat) (v : V) :
    (g.insert oid eid ver v).entries = g.entries ++ [⟨eid, ver, oid, v⟩] ∧
    (g.insert oid eid ver v).lookup eid = some (ver, oid, v) ∧
    ∀ id, ¬ id = eid → (g.insert oid eid ver v).lookup id = g.lookup id := by
  refine ⟨rfl, ?_, ?_⟩
  · simp [UpdateGuard.insert, UpdateGuard.lookup]
  · intro id hid
    simp only [UpdateGuard.insert, UpdateGuard.lookup, List.foldl_append,
      List.foldl_cons, List.foldl_nil]
    rw [if_neg]
    intro h
    exact hid h.symm

/-- Witness for C5's theorem at a concrete input. -/
theorem update_batch_latest_wins_witness :
    ((⟨[], 0⟩ : UpdateGuard Nat).insert 1 2 3 7).lookup 5 =
      (⟨[], 0⟩ : UpdateGuard Nat).lookup 5 :=
  (update_batch_latest_wins Nat ⟨[], 0⟩ 1 2 3 7).2.2 5 (by decide)

/-- C4 (code divergence): `create_config_object_with_id` on an object id
that already has a visible live current record returns success with an
empty update batch and an unchanged map — `DualVersionedTransaction::create`
is `self.get_current(..).is_some() || { self.insert(..); true }`, which
short-circuits to `true` without buffering, so the
`ObjectIdAlreadyExists` branch at the call site is unreachable. Evaluated
here at a concrete failing input (object id 0 in state `Created`, live
current record). -/
theorem create_config_object_with_id_conflict_not_reported :
    create_config_object_with_id "t" (fun _ => true)
      (⟨[(0, .Created ⟨5, 0, ⟨⟨⟨0, 0, none⟩, some 0, none⟩, 7⟩⟩ true)]⟩ :
        DualVersionedData Nat) 0 8 true 1 9 =
      .ok (⟨[(0, .Created ⟨5, 0, ⟨⟨⟨0, 0, none⟩, some 0, none⟩, 7⟩⟩ true)]⟩,
        ⟨[], 9⟩) := by
  rfl

/-- C9: for an object whose in-memory dual-timeline state is `Removed`
(live on the active timeline only), `update_config_object` and
`remove_config_object` fail with `ObjectDoesNotExist`, while
`read_config_object` with `Timeline::Active` returns the object's value. -/
theorem removed_state_update_remove_read (V : Type) (table : String)
    (verify : V → Bool) (data : DualVersionedData V) (oid : ObjectId)
    (a : DualDoc V) (v : V) (c : Bool) (now : Time) (n0 : ElasticId)
    (h : getAssoc data.objs oid = some (.Removed a))
    (hv : verify v = true) :
    update_config_object table verify data oid v c now n0 =
      .error (.ObjectDoesNotExist table oid) ∧
    remove_config_object table data oid now n0 =
      .error (.ObjectDoesNotExist table oid) ∧
    read_config_object table data oid .Active = .ok a.value := by
  refine ⟨?_, ?_, ?_⟩
  · simp [update_config_object, hv, DualVersionedTransaction.update,
      DualVersionedTransaction.get_current, DualVersionedData.get_current,
      h, DualVersionedObj.get_current]
  · simp [remove_config_object, DualVersionedTransaction.remove,
      DualVersionedTransaction.get_current, DualVersionedData.get_current,
      h, DualVersionedObj.get_current]
  · simp [read_config_object, DualVersionedData.get,
      DualVersionedData.get_active, h, DualVersionedObj.get_active]

/-- Witness for C9's theorem at a concrete input. -/
theorem removed_state_update_remove_read_witness :
    update_config_object "t" (fun _ => true)
        (⟨[(0, .Removed ⟨4, 2, ⟨⟨⟨0, 0, some 1⟩, some 0, some ⟨1, 1, none⟩⟩,
            7⟩⟩)]⟩ : DualVersionedData Nat) 0 9 true 2 5 =
      .error (.ObjectDoesNotExist "t" 0) ∧
    remove_config_object "t"
        (⟨[(0, .Removed ⟨4, 2, ⟨⟨⟨0, 0, some 1⟩, some 0, some ⟨1, 1, none⟩⟩,
            7⟩⟩)]⟩ : DualVersionedData Nat) 0 2 5 =
      .error (.ObjectDoesNotExist "t" 0) ∧
    read_config_object "t"
        (⟨[(0, .Removed ⟨4, 2, ⟨⟨⟨0, 0, some 1⟩, some 0, some ⟨1, 1, none⟩⟩,
            7⟩⟩)]⟩ : DualVersionedData Nat) 0 .Active =
      .ok ⟨⟨⟨0, 0, some 1⟩, some 0, some ⟨1, 1, none⟩⟩, 7⟩ :=
  removed_state_update_remove_read Nat "t" (fun _ => true)
    ⟨[(0, .Removed ⟨4, 2, ⟨⟨⟨0, 0, some 1⟩, some 0, some ⟨1, 1, none⟩⟩, 7⟩⟩)]⟩
    0 ⟨4, 2, ⟨⟨⟨0, 0, some 1⟩, some 0, some ⟨1, 1, none⟩⟩, 7⟩⟩ 9 true 2 5
    (by decide) (by decide)

/-- C6: in a non-force-update single-timeline table, committing a
transaction that buffered an upsert of `x` for an object that is live and
whose current payload equals `x` under the schema-aware value equality
emits zero update-batch entries and leaves the in-memory entry unchanged. -/
theorem payload_equality_skip (V : Type) (now : Time) (veq : V → V → Bool)
    (data : SingleVersionedData V) (oid : ObjectId)
    (doc : ElasticDoc (SingleVersionedValue V)) (x : V) (n0 : ElasticId)
    (h : getAssoc data.objs oid = some doc)
    (heq : veq doc.value.value x = true) :
    SingleVersionedTransaction.commit ⟨data, [(oid, some x)]⟩ now false veq
        ⟨[], n0⟩ =
      (data, ⟨[], n0⟩) := by
  simp [SingleVersionedTransaction.commit, h, heq]

/-- Witness for C6's theorem at a concrete input. -/
theorem payload_equality_skip_witness :
    SingleVersionedTransaction.commit
        (⟨⟨[(0, ⟨4, 2, ⟨⟨⟨0, 0, none⟩⟩, 7⟩⟩)]⟩, [(0, some 7)]⟩ :
          SingleVersionedTransaction Nat) 1 false (fun a b => a == b)
        ⟨[], 5⟩ =
      (⟨[(0, ⟨4, 2, ⟨⟨⟨0, 0, none⟩⟩, 7⟩⟩)]⟩, ⟨[], 5⟩) :=
  payload_equality_skip Nat 1 (fun a b => a == b) _ 0 ⟨4, 2, ⟨⟨⟨0, 0, none⟩⟩, 7⟩⟩
    7 5 (by decide) (by decide)

/-- C8 counterexample: the claim "bulk_update returns success iff every
per-item status is 200 or 409" is false at the concrete bulk response
`{errors = false, items = [status 500]}`: the source only fails when the
response's `errors` flag is set, so this call succeeds although an item has
another status. -/
theorem bulk_update_status_iff_cex :
    ¬ ((bulk_update_result false [500] = .ok ()) ↔
        ∀ s ∈ [500], s = 200 ∨ s = 409) := by
  intro h
  have h500 := h.mp (by simp [bulk_update_result]) 500 (by simp)
  omega

/-- C8 (amended): a single optimistic `update_object` returns success when
the store answers with a 409 version conflict; `bulk_update` returns
success iff the response's `errors` flag is unset or every per-item status
is 200 or 409, and when the flag is set and at least one item has another
status, it fails with `BulkUpdateComplete` if no item has status 200 or 409
and with `BulkUpdatePartial` otherwise. -/
theorem bulk_update_partition (errors : Bool) (statuses : List Nat) :
    update_object_result (.error (.EsError 409)) = .ok () ∧
    (bulk_update_result errors statuses = .ok () ↔
      (errors = false ∨ ∀ s ∈ statuses, s = 200 ∨ s = 409)) ∧
    (errors = true → (∃ s ∈ statuses, ¬ s = 200 ∧ ¬ s = 409) →
      bulk_update_result errors statuses =
        .error
          (if statuses.all (fun s => ¬ s = 200 ∧ ¬ s = 409) then
            ElasticError.BulkUpdateComplete
          else ElasticError.BulkUpdatePartial)) := by
  refine ⟨rfl, ?_, ?_⟩
  · constructor
    · intro h
      by_contra hc
      push_neg at hc
      obtain ⟨he, s, hs, hs2⟩ := hc
      have : errors = true := by
        cases errors
        · exact absurd rfl he
        · rfl
      rw [bulk_update_result, if_pos] at h
      · exact Except.noConfusion h
      · refine ⟨this, ?_⟩
        simp only [List.any_eq_true, decide_eq_true_eq]
        exact ⟨s, hs, hs2.1, hs2.2⟩
    · intro h
      rw [bulk_update_result, if_neg]
      rintro ⟨he, hany⟩
      simp only [List.any_eq_true, decide_eq_true_eq] at hany
      obtain ⟨s, hs, h200, h409⟩ := hany
      rcases h with h | h
      · rw [h] at he; exact Bool.noConfusion he
      · rcases h s hs with h2 | h2
        · exact h200 h2
        · exact h409 h2
  · rintro he ⟨s, hs, h200, h409⟩
    rw [bulk_update_result, if_pos]
    refine ⟨he, ?_⟩
    simp only [List.any_eq_true, decide_eq_true_eq]
    exact ⟨s, hs, h200, h409⟩

/-- Witness for C8's amended theorem at a concrete input. -/
theorem bulk_update_partition_witness :
    bulk_update_result true [500, 200] = .error ElasticError.BulkUpdatePartial := by
  have h := (bulk_update_partition true [500, 200]).2.2 rfl
    ⟨500, by decide, by decide, by decide⟩
  simpa using h

/-- C7: during a verification scan, for a record whose object id was seen
before, an `Overlap` message is emitted iff the previously seen `active.to`
is `none` or strictly greater than the record's `active.from`, a `Gap`
message is emitted iff it is strictly smaller, and no problem message is
emitted when they are equal; every batch ends with `Progress(n)`, `n` the
cumulative count of records scanned. -/
theorem verification_overlap_gap_progress
    (st : List (ObjectId × (ElasticId × Option Time))) (r : ScanRecord)
    (prev_id : ElasticId) (prev_to : Option Time)
    (h : getAssoc st r.object_id = some (prev_id, prev_to)) :
    ((VerificationMsg.Overlap r.object_id prev_id r.elastic_id prev_to
        r.active.from_ ∈ (verifyRecord st r).1) ↔
      (prev_to = none ∨ ∃ p, prev_to = some p ∧ r.active.from_ < p)) ∧
    ((VerificationMsg.Gap r.object_id prev_id r.elastic_id prev_to
        r.active.from_ ∈ (verifyRecord st r).1) ↔
      (∃ p, prev_to = some p ∧ p < r.active.from_)) ∧
    (prev_to = some r.active.from_ → (verifyRecord st r).1 = []) ∧
    (∀ (st' : List (ObjectId × (ElasticId × Option Time))) (n : Nat)
        (docs : List ScanRecord),
      ∃ ms, (verifyBatch st' n docs).1 =
          ms ++ [VerificationMsg.Progress (n + docs.length)] ∧
        (verifyBatch st' n docs).2.2 = n + docs.length) := by
  refine ⟨?_, ?_, ?_, ?_⟩
  · rcases prev_to with _ | p
    · simp [verifyRecord, h]
    · by_cases h1 : r.active.from_ < p
      · simp [verifyRecord, h, h1]
      · by_cases h2 : p < r.active.from_
        · simp only [verifyRecord, h, h1, if_false, if_neg h1, if_pos h2]
          constructor
          · intro hm
            simp at hm
          · rintro (hnone | ⟨q, hq, hlt⟩)
            · exact Option.noConfusion hnone
            · rw [Option.some_inj] at hq
              subst hq
              exact absurd hlt h1
        · simp only [verifyRecord, h, if_neg h1, if_neg h2]
          constructor
          · intro hm
            simp at hm
          · rintro (hnone | ⟨q, hq, hlt⟩)
            · exact Option.noConfusion hnone
            · rw [Option.some_inj] at hq
              subst hq
              exact absurd hlt h1
  · rcases prev_to with _ | p
    · constructor
      · intro hm
        simp [verifyRecord, h] at hm
      · rintro ⟨q, hq, _⟩
        exact Option.noConfusion hq
    · by_cases h1 : r.active.from_ < p
      · simp only [verifyRecord, h, if_pos h1]
        constructor
        · intro hm
          simp at hm
        · rintro ⟨q, hq, hlt⟩
          rw [Option.some_inj] at hq
          subst hq
          exact absurd hlt (lt_asymm h1)
      · by_cases h2 : p < r.active.from_
        · simp only [verifyRecord, h, if_neg h1, if_pos h2]
          constructor
          · intro hm
            exact ⟨p, rfl, h2⟩
          · intro hm
            simp
        · simp only [verifyRecord, h, if_neg h1, if_neg h2]
          constructor
          · intro hm
            simp at hm
          · rintro ⟨q, hq, hlt⟩
            rw [Option.some_inj] at hq
            subst hq
            exact absurd hlt h2
  · intro he
    subst he
    simp only [verifyRecord, h]
    rw [if_neg (lt_irrefl _), if_neg (lt_irrefl _)]
  · intro st' n docs
    exact ⟨_, rfl, rfl⟩

/-- Witness for C7's theorem at a concrete input. -/
theorem verification_overlap_gap_progress_witness :
    VerificationMsg.Overlap 1 10 11 (some 5) 3 ∈
      (verifyRecord [(1, (10, some 5))] ⟨11, 1, ⟨0, 3, some 9⟩⟩).1 :=
  (verification_overlap_gap_progress [(1, (10, some 5))] ⟨11, 1, ⟨0, 3, some 9⟩⟩
      10 (some 5) (by decide)).1.mpr (Or.inr ⟨5, rfl, by decide⟩)

/-- Appending an entry for a different key does not change a lookup. -/
theorem getAssoc_append_of_ne (l : List (ObjectId × A)) (k k' : ObjectId)
    (v : A) (hne : ¬ k = k') :
    getAssoc (l ++ [(k', v)]) k = getAssoc l k := by
  unfold getAssoc
  rw [List.find?_append]
  have h2 : List.find? (fun p => decide (p.1 = k)) [(k', v)] = none := by
    have : ¬ k' = k := fun h => hne h.symm
    simp [this]
  rw [h2]
  cases List.find? (fun p => decide (p.1 = k)) l <;> simp

/-- Folding `bulkStep` over a list of operations whose object ids are
pairwise distinct and absent from the buffered edits fails with the error
of the first operation violating its precondition. -/
theorem bulk_fold_error (V : Type) (table : String) :
    ∀ (ops : List (ObjectId × Operation V))
      (t : SingleVersionedTransaction V) (p₀ : ObjectId × Operation V),
      (∀ oid ∈ ops.map Prod.fst, getAssoc t.updates oid = none) →
      (ops.map Prod.fst).Nodup →
      ops.find? (opFails t.data) = some p₀ →
      ops.foldlM (bulkStep table) t = .error (opError table p₀) := by
  intro ops
  induction ops with
  | nil =>
      intro t p₀ _ _ hf
      simp at hf
  | cons p rest ih =>
      intro t p₀ hinv hnd hf
      have hbuf : getAssoc t.updates p.1 = none := hinv p.1 (by simp)
      rw [List.foldlM_cons]
      by_cases hfp : opFails t.data p = true
      · rw [List.find?_cons_of_pos _ hfp] at hf
        rw [Option.some_inj] at hf
        subst hf
        rcases p with ⟨oid, op⟩
        cases op with
        | Create value =>
            have hdata : (getAssoc t.data.objs oid).isSome = true := by
              simpa [opFails] using hfp
            simp [bulkStep, SingleVersionedTransaction.create, hbuf, hdata,
              opError]
            rfl
        | Update value =>
            have hdata : (getAssoc t.data.objs oid).isNone = true := by
              simpa [opFails] using hfp
            rw [Option.isNone_iff_eq_none] at hdata
            simp [bulkStep, SingleVersionedTransaction.update, hbuf, hdata,
              opError]
            rfl
        | CreateOrUpdate value =>
            simp [opFails] at hfp
        | Remove =>
            have hdata : (getAssoc t.data.objs oid).isNone = true := by
              simpa [opFails] using hfp
            rw [Option.isNone_iff_eq_none] at hdata
            simp [bulkStep, SingleVersionedTransaction.remove, hbuf, hdata,
              opError]
            rfl
      · have hfp' : opFails t.data p = false := by
          cases hop : opFails t.data p
          · rfl
          · exact absurd hop hfp
        rw [List.find?_cons_of_neg _ (by simp [hfp'])] at hf
        have hnd2 : p.1 ∉ List.map Prod.fst rest ∧
            (List.map Prod.fst rest).Nodup := by
          rw [List.map_cons, List.nodup_cons] at hnd
          exact hnd
        obtain ⟨x, hx⟩ : ∃ x, bulkStep table t p =
            .ok { t with updates := t.updates ++ [(p.1, x)] } := by
          rcases p with ⟨oid, op⟩
          cases op with
          | Create value =>
              refine ⟨some value, ?_⟩
              have hdata : (getAssoc t.data.objs oid).isSome = false := by
                simpa [opFails] using hfp'
              simp [bulkStep, SingleVersionedTransaction.create, hbuf, hdata]
          | Update value =>
              refine ⟨some value, ?_⟩
              have hdata : (getAssoc t.data.objs oid).isNone = false := by
                simpa [opFails] using hfp'
              obtain ⟨y, hy⟩ : ∃ y, getAssoc t.data.objs oid = some y := by
                cases hcase : getAssoc t.data.objs oid
                · rw [hcase] at hdata
                  exact Bool.noConfusion hdata
                · exact ⟨_, rfl⟩
              simp [bulkStep, SingleVersionedTransaction.update, hbuf, hy]
          | CreateOrUpdate value =>
              refine ⟨some value, ?_⟩
              simp [bulkStep, SingleVersionedTransaction.insert, hbuf]
          | Remove =>
              refine ⟨none, ?_⟩
              have hdata : (getAssoc t.data.objs oid).isNone = false := by
                simpa [opFails] using hfp'
              obtain ⟨y, hy⟩ : ∃ y, getAssoc t.data.objs oid = some y := by
                cases hcase : getAssoc t.data.objs oid
                · rw [hcase] at hdata
                  exact Bool.noConfusion hdata
                · exact ⟨_, rfl⟩
              simp [bulkStep, SingleVersionedTransaction.remove, hbuf, hy]
        rw [hx]
        show rest.foldlM (bulkStep table)
            { t with updates := t.updates ++ [(p.1, x)] } = _
        refine ih _ p₀ ?_ hnd2.2 hf
        intro oid' hmem
        have hne : ¬ oid' = p.1 := by
          intro he
          subst he
          exact hnd2.1 hmem
        rw [show ({ t with updates := t.updates ++ [(p.1, x)] } :
              SingleVersionedTransaction V).updates =
            t.updates ++ [(p.1, x)] from rfl]
        rw [getAssoc_append_of_ne _ _ _ _ hne]
        exact hinv oid' (by rw [List.map_cons]; exact List.mem_cons_of_mem _ hmem)

/-- C10: if any operation in a `bulk_update_discovery_objects` call fails
its precondition (`Create` on a live id, `Update`/`Remove` on a non-live
id), the call returns the error of the first failing operation in
iteration order, and — since the transaction is dropped without commit —
no update batch is produced, no write is issued to the store, and the
in-memory map is unchanged, the effects of preceding operations in the
same call included (the `.error` result carries no data map and no batch;
only the `.ok` branch commits and flushes). Object ids are pairwise
distinct, as the call's operations come keyed by a hash map. -/
theorem bulk_update_atomic_failure (V : Type) (table : String)
    (verify : V → Bool) (data : SingleVersionedData V)
    (ops : List (ObjectId × Operation V)) (now : Time) (force_update : Bool)
    (veq : V → V → Bool) (n0 : ElasticId) (p₀ : ObjectId × Operation V)
    (hnd : (ops.map Prod.fst).Nodup)
    (hver : (ops.all fun (p : ObjectId × Operation V) =>
        match p.2 with
        | .Create v | .Update v | .CreateOrUpdate v => verify v
        | .Remove => true) = true)
    (hfail : ops.find? (opFails data) = some p₀) :
    bulk_update_discovery_objects table verify data ops now force_update veq
        n0 =
      .error (opError table p₀) := by
  unfold bulk_update_discovery_objects
  rw [if_neg (by simp [hver])]
  rw [bulk_fold_error V table ops ⟨data, []⟩ p₀ (fun _ _ => rfl) hnd hfail]
  rfl

/-- Witness for C10's theorem at a concrete input. -/
theorem bulk_update_atomic_failure_witness :
    bulk_update_discovery_objects "t" (fun _ => true)
        (⟨[(0, ⟨4, 2, ⟨⟨⟨0, 0, none⟩⟩, 7⟩⟩)]⟩ : SingleVersionedData Nat)
        [(1, .Update 5)] 1 false (fun a b => a == b) 9 =
      .error (DbError.ObjectDoesNotExist "t" 1) :=
  bulk_update_atomic_failure Nat "t" (fun _ => true)
    ⟨[(0, ⟨4, 2, ⟨⟨⟨0, 0, none⟩⟩, 7⟩⟩)]⟩ [(1, .Update 5)] 1 false
    (fun a b => a == b) 9 (1, .Update 5) (by decide) (by decide) (by decide)

/-- A fresh record is current-live. -/
@[simp]
theorem currentLive_new (now : Time) (v : V) (c : Bool) :
    currentLive (DualVersionedValue.new now v c) = true :=
  rfl

/-- A fresh record is not active-live. -/
@[simp]
theorem activeLive_new (now : Time) (v : V) (c : Bool) :
    activeLive (DualVersionedValue.new now v c) = false :=
  rfl

/-- An updated record is current-live. -/
@[simp]
theorem currentLive_update (x : DualVersionedValue V) (now : Time) (v : V)
    (c : Bool) : currentLive (x.update now v c) = true :=
  rfl

/-- An updated record is not active-live. -/
@[simp]
theorem activeLive_update (x : DualVersionedValue V) (now : Time) (v : V)
    (c : Bool) : activeLive (x.update now v c) = false :=
  rfl

/-- In-place mutation retains the current anchor, hence current liveness. -/
@[simp]
theorem currentLive_update_uncommitted (x : DualVersionedValue V) (now : Time)
    (v : V) (c : Bool) :
    currentLive (x.update_uncommitted now v c) = currentLive x :=
  rfl

/-- In-place mutation retains the active anchor, hence active liveness. -/
@[simp]
theorem activeLive_update_uncommitted (x : DualVersionedValue V) (now : Time)
    (v : V) (c : Bool) :
    activeLive (x.update_uncommitted now v c) = activeLive x :=
  rfl

/-- A removed record is not current-live. -/
@[simp]
theorem currentLive_remove (x : DualVersionedValue V) (now : Time) :
    currentLive (x.remove now) = false :=
  rfl

/-- Removing closes only the current side. -/
@[simp]
theorem activeLive_remove (x : DualVersionedValue V) (now : Time) :
    activeLive (x.remove now) = activeLive x :=
  rfl

/-- Activation opens only the active side. -/
@[simp]
theorem currentLive_activate (x : DualVersionedValue V) (now : Time)
    (p : Option Anchor) : currentLive (x.activate now p) = currentLive x :=
  rfl

/-- An activated record is active-live. -/
@[simp]
theorem activeLive_activate (x : DualVersionedValue V) (now : Time)
    (p : Option Anchor) : activeLive (x.activate now p) = true :=
  rfl

/-- Closing the active side keeps current liveness. -/
@[simp]
theorem currentLive_activate_remove (x : DualVersionedValue V) (now : Time) :
    currentLive (x.activate_remove now) = currentLive x :=
  rfl

/-- A record whose active side was closed is not active-live. -/
@[simp]
theorem activeLive_activate_remove (x : DualVersionedValue V) (now : Time) :
    activeLive (x.activate_remove now) = false := by
  unfold activeLive DualVersionedValue.activate_remove
  cases x.version.active <;> simp


/-- C1 (code divergence, evaluated at a concrete failing input): committing
the token `InsertActivate` over the well-formed prior state `Activated`
(one shared record live on both timelines) emits a batch that leaves TWO
records with `current.to = none`: `replace` closes only the active side of
the old shared record (`activate_remove`), leaving its current side open,
while the fresh replacing record opens a new current. Folding the two
resulting live records per object, as the loader does, then fails —
`DualVersionedObj::combine` accepts only a `Created`/`Removed` pair — so
reloading the table reports `InconsistentData`: the commit contradicts the
code's own loader invariant (sibling arms such as
`InsertActivateRemove × Activated` close both sides with
`v.remove(now).activate_remove(now)`). -/
theorem dual_uniqueness_violation :
    (commitDualObj 2 0 (.InsertActivate 8)
        (some (.Activated (⟨3, 1, ⟨⟨⟨0, 0, none⟩, some 0, some ⟨1, 1, none⟩⟩,
          7⟩⟩ : DualDoc Nat))) ⟨[], 9⟩).2.entries =
      [⟨3, 2, 0, ⟨⟨⟨0, 0, none⟩, some 0, some ⟨1, 1, some 2⟩⟩, 7⟩⟩,
       ⟨9, 0, 0, ⟨⟨⟨2, 2, none⟩, some 2, some ⟨1, 2, none⟩⟩, 8⟩⟩] ∧
    countCurrentLive (applyBatch
        (storeOf (some (.Activated (⟨3, 1, ⟨⟨⟨0, 0, none⟩, some 0,
            some ⟨1, 1, none⟩⟩, 7⟩⟩ : DualDoc Nat))))
        [⟨3, 2, 0, ⟨⟨⟨0, 0, none⟩, some 0, some ⟨1, 1, some 2⟩⟩, 7⟩⟩,
         ⟨9, 0, 0, ⟨⟨⟨2, 2, none⟩, some 2, some ⟨1, 2, none⟩⟩, 8⟩⟩]) = 2 ∧
    wellFormedObj (some (.Activated (⟨3, 1, ⟨⟨⟨0, 0, none⟩, some 0,
        some ⟨1, 1, none⟩⟩, 7⟩⟩ : DualDoc Nat))) ∧
    DualVersionedObj.from_doc 3 2
        (⟨⟨⟨0, 0, none⟩, some 0, some ⟨1, 1, some 2⟩⟩, 7⟩ :
          DualVersionedValue Nat) =
      some (.Created ⟨3, 2, ⟨⟨⟨0, 0, none⟩, some 0, some ⟨1, 1, some 2⟩⟩, 7⟩⟩
        true) ∧
    DualVersionedObj.from_doc 9 0
        (⟨⟨⟨2, 2, none⟩, some 2, some ⟨1, 2, none⟩⟩, 8⟩ :
          DualVersionedValue Nat) =
      some (.Activated ⟨9, 0, ⟨⟨⟨2, 2, none⟩, some 2, some ⟨1, 2, none⟩⟩,
        8⟩⟩) ∧
    (DualVersionedObj.Created
        (⟨3, 2, ⟨⟨⟨0, 0, none⟩, some 0, some ⟨1, 1, some 2⟩⟩, 7⟩⟩ :
          DualDoc Nat) true).combine
      (.Activated ⟨9, 0, ⟨⟨⟨2, 2, none⟩, some 2, some ⟨1, 2, none⟩⟩, 8⟩⟩) =
      .error (.Created ⟨3, 2, ⟨⟨⟨0, 0, none⟩, some 0, some ⟨1, 1, some 2⟩⟩,
        7⟩⟩ true) := by
  exact ⟨rfl, rfl, ⟨rfl, rfl⟩, rfl, rfl, rfl⟩
